import Mathlib

/-!
Shallow embedding of the static blog site: the `Navbar` component
(src/partials/Navbar.tsx), the front matter of the two authored content
items (src/pages/posts/scala-101.md, src/pages/posts/scala-oop.md), and —
modelled from the spec where the repository's own code is not under src/ —
the page assembler and the hero component.
-/

/-- A node of rendered markup: either a text node or an element with a tag,
an attribute list, and a list of child nodes.  Components imported from the
external `astro-boilerplate-components` library are represented as elements
carrying the component's tag name. -/
inductive Node where
  | text : String → Node
  | elem : String → List (String × String) → List Node → Node

/-- Look up an attribute value in an attribute list. -/
def attrLookup (key : String) : List (String × String) → Option String
  | [] => none
  | (k, v) :: rest => if k = key then some v else attrLookup key rest

mutual

/-- Concatenated text content of a markup tree. -/
def textContent : Node → String
  | .text s => s
  | .elem _ _ children => textContentList children

/-- Concatenated text content of a list of markup trees. -/
def textContentList : List Node → String
  | [] => ""
  | n :: ns => textContent n ++ textContentList ns

end

mutual

/-- Collect, in document order, the `(label, href)` pairs of every
`NavMenuItem` element in a markup tree; the label is the item's text
content. -/
def navMenuEntries : Node → List (String × String)
  | .text _ => []
  | .elem tag attrs children =>
      (if tag = "NavMenuItem" then
        [(textContentList children, (attrLookup "href" attrs).getD "")]
      else []) ++ navMenuEntriesList children

/-- `navMenuEntries` over a list of trees. -/
def navMenuEntriesList : List Node → List (String × String)
  | [] => []
  | n :: ns => navMenuEntries n ++ navMenuEntriesList ns

end

mutual

/-- Collect, in document order, the `href` attribute of every anchor
(`a`) element in a markup tree. -/
def anchorHrefs : Node → List String
  | .text _ => []
  | .elem tag attrs children =>
      (if tag = "a" then [(attrLookup "href" attrs).getD ""] else [])
        ++ anchorHrefsList children

/-- `anchorHrefs` over a list of trees. -/
def anchorHrefsList : List Node → List String
  | [] => []
  | n :: ns => anchorHrefs n ++ anchorHrefsList ns

end

mutual

/-- Collect, in document order, the `src` attribute of every `img`
element in a markup tree. -/
def imgSrcs : Node → List String
  | .text _ => []
  | .elem tag attrs children =>
      (if tag = "img" then [(attrLookup "src" attrs).getD ""] else [])
        ++ imgSrcsList children

/-- `imgSrcs` over a list of trees. -/
def imgSrcsList : List Node → List String
  | [] => []
  | n :: ns => imgSrcs n ++ imgSrcsList ns

end

/- Library components imported by Navbar.tsx from
`astro-boilerplate-components`; they wrap their children in an element
named after the component. -/

/-- The library `Section` wrapper. -/
def SectionC (children : List Node) : Node := .elem "Section" [] children

/-- The library `NavbarTwoColumns` wrapper. -/
def NavbarTwoColumns (children : List Node) : Node :=
  .elem "NavbarTwoColumns" [] children

/-- The library `NavMenu` wrapper. -/
def NavMenu (children : List Node) : Node := .elem "NavMenu" [] children

/-- The library `NavMenuItem` component: a menu entry with an `href`
attribute and child content. -/
def NavMenuItem (href : String) (children : List Node) : Node :=
  .elem "NavMenuItem" [("href", href)] children

/-- Props of the `Logo` component (Navbar.tsx, `ILogoProps`). -/
structure ILogoProps where
  icon : Node
  name : String

/-- The `Logo` component (Navbar.tsx): a flex `div` holding the icon and
the display name. -/
def Logo (props : ILogoProps) : Node :=
  .elem "div"
    [("className", "flex items-center text-xl font-bold"),
     ("style", "color: rgba(25, 189, 236, 0.9)")]
    [props.icon, .text props.name]

/-- The `Navbar` component (Navbar.tsx): a section holding a two-column
bar whose first column is the logo wrapped in an anchor to `/` and whose
second column is the navigation menu Blog → `/posts/`, GitHub → `/`,
Twitter → `/`.  It takes no inputs. -/
def Navbar : Node :=
  SectionC [
    NavbarTwoColumns [
      .elem "a" [("href", "/")] [
        Logo
          { icon := .elem "img"
              [("src", "/assets/images/avatar.png"), ("width", "20rem"),
               ("style", "margin-right: 1rem")] []
            name := "The Data Lead" }],
      NavMenu [
        NavMenuItem "/posts/" [.text "Blog"],
        NavMenuItem "/" [.text "GitHub"],
        NavMenuItem "/" [.text "Twitter"]]]]

/-- A destination is external to the site when it is an absolute URL
(scheme-qualified), as opposed to a site-relative path such as `/` or
`/posts/`. -/
def isExternal (href : String) : Bool :=
  "http://".data.isPrefixOf href.data || "https://".data.isPrefixOf href.data

/-- The key-value header block (front matter) of a content file, with each
key optional so that its absence can be expressed. -/
structure FrontMatter where
  layout : Option String
  title : Option String
  description : Option String
  pubDate : Option String
  imgSrc : Option String
  imgAlt : Option String

/-- Front matter of src/pages/posts/scala-101.md, transcribed verbatim. -/
def scala101 : FrontMatter where
  layout := some "@/templates/BasePost.astro"
  title := some "Scala 101"
  description := some "Learn the very basics of Scala 3"
  pubDate := some "2024-02-018"
  imgSrc := some "/assets/images/articles/scala-101-1.png"
  imgAlt := some "Image post 7"

/-- Front matter of src/pages/posts/scala-oop.md, transcribed verbatim. -/
def scalaOop : FrontMatter where
  layout := some "@/templates/BasePost.astro"
  title := some "Scala 101"
  description := some "OOP with Scala"
  pubDate := some "2024-02-23"
  imgSrc := some "/assets/images/articles/scala-oop/thumbnail.png"
  imgAlt := some "Image post 7"

/-- The authored ContentItems of the repository: the two markdown posts
under src/pages/posts/. -/
def contentItems : List FrontMatter := [scala101, scalaOop]

/-- `true` exactly when the string is a calendar date in the format the
content files use for `pubDate`: `YYYY-MM-DD` with a four-digit year, a
two-digit month `01`–`12` and a two-digit day `01`–`31`. -/
def isDateValue (s : String) : Bool :=
  match s.data with
  | [y1, y2, y3, y4, '-', m1, m2, '-', d1, d2] =>
      y1.isDigit && y2.isDigit && y3.isDigit && y4.isDigit &&
      m1.isDigit && m2.isDigit && d1.isDigit && d2.isDigit &&
      (let m := (m1.toNat - 48) * 10 + (m2.toNat - 48)
       let d := (d1.toNat - 48) * 10 + (d2.toNat - 48)
       1 ≤ m && m ≤ 12 && 1 ≤ d && d ≤ 31)
  | _ => false

/-- `true` exactly when the string is a site path (as `imgSrc` and
`layout` hold): a nonempty plain string, either rooted at `/` or an
alias path starting with `@/`. -/
def isPathString (s : String) : Bool :=
  "/".data.isPrefixOf s.data || "@/".data.isPrefixOf s.data

/-- Modelled from the spec: the page assembler (the shared
`BasePost.astro` template and the Astro build step are not under src/).
Given one ContentItem it produces a fully composed page — a metadata
section carrying the header's title, description, publication date and
hero image reference verbatim, the site-wide `Navbar`, and the rendered
body — and it fails (produces no page) when a required header field
(title or publication date) is missing. -/
def assemblePage (fm : FrontMatter) (body : List Node) : Option Node :=
  match fm.title, fm.pubDate with
  | some t, some d =>
      some (.elem "Page" []
        [.elem "Metadata" []
          ([.elem "title" [] [.text t]]
            ++ (match fm.description with
                | some desc => [.elem "description" [] [.text desc]]
                | none => [])
            ++ [.elem "pubDate" [] [.text d]]
            ++ (match fm.imgSrc with
                | some src => [.elem "imgSrc" [] [.text src]]
                | none => [])),
         Navbar,
         .elem "Body" [] body])
  | _, _ => none

mutual

/-- Collect, in document order, the text content of every element with the
given tag in a markup tree. -/
def taggedTexts (tag : String) : Node → List String
  | .text _ => []
  | .elem t _ children =>
      (if t = tag then [textContentList children] else [])
        ++ taggedTextsList tag children

/-- `taggedTexts` over a list of trees. -/
def taggedTextsList (tag : String) : List Node → List String
  | [] => []
  | n :: ns => taggedTexts tag n ++ taggedTextsList tag ns

end

/-- A social link given to the hero component: an icon and a destination. -/
structure SocialLink where
  icon : Node
  href : String

/-- Modelled from the spec: one social-link button of the hero component
(the hero lives in a file not under src/; the spec's contract gives it a
sequence of (icon, destination) pairs rendered as links).  It is an anchor
to the destination holding the icon. -/
def HeroSocial (link : SocialLink) : Node :=
  .elem "a" [("href", link.href)] [link.icon]

/-- Modelled from the spec: the hero component (not under src/).  Inputs
are a title node, a description node, an avatar image reference and a
sequence of social-link pairs; the output is static markup holding the
title, the description, the avatar image and one link element per
social-link pair, in the given order. -/
def HeroAvatar (title description : Node) (avatar : String)
    (socialButtons : List SocialLink) : Node :=
  .elem "HeroAvatar" []
    [.elem "HeroTitle" [] [title],
     .elem "HeroDescription" [] [description],
     .elem "img" [("src", avatar)] [],
     .elem "HeroSocials" [] (socialButtons.map HeroSocial)]

mutual

/-- Collect, in document order, every anchor (`a`) element of a markup
tree, as a whole subtree. -/
def anchorElems : Node → List Node
  | .text _ => []
  | .elem tag attrs children =>
      (if tag = "a" then [.elem tag attrs children] else [])
        ++ anchorElemsList children

/-- `anchorElems` over a list of trees. -/
def anchorElemsList : List Node → List Node
  | [] => []
  | n :: ns => anchorElems n ++ anchorElemsList ns

end

/-- Serialize an attribute list to markup text. -/
def renderAttrs : List (String × String) → String
  | [] => ""
  | (k, v) :: rest => " " ++ k ++ "=\"" ++ v ++ "\"" ++ renderAttrs rest

mutual

/-- Serialize a markup tree to its output text, so that byte-level
identity of rendered output can be stated. -/
def renderNode : Node → String
  | .text s => s
  | .elem tag attrs children =>
      "<" ++ tag ++ renderAttrs attrs ++ ">"
        ++ renderNodeList children ++ "</" ++ tag ++ ">"

/-- `renderNode` over a list of trees, concatenated. -/
def renderNodeList : List Node → String
  | [] => ""
  | n :: ns => renderNode n ++ renderNodeList ns

end

/-- The shared chrome slot of an assembled page: the navigation component
that `assemblePage` places between the metadata section and the body. -/
def pageChrome : Node → Option Node
  | .elem "Page" _ [_, nav, _] => some nav
  | _ => none

/-- Modelled from the spec: the landing page's three social-link pairs
(Twitter, Facebook, LinkedIn) handed to the hero component (the landing
page file is not under src/). -/
def heroScenario : List SocialLink :=
  [{ icon := .elem "img" [("src", "/assets/images/twitter-icon.png")] []
     href := "https://twitter.com/" },
   { icon := .elem "img" [("src", "/assets/images/facebook-icon.png")] []
     href := "https://facebook.com/" },
   { icon := .elem "img" [("src", "/assets/images/linkedin-icon.png")] []
     href := "https://linkedin.com/" }]


/-- One hero social button renders as a single link element whose target
is the pair's destination, provided the icon itself contains no link. -/
theorem heroSocial_hrefs (l : SocialLink) (h : anchorHrefs l.icon = []) :
    anchorHrefs (HeroSocial l) = [l.href] := by
  simp [HeroSocial, anchorHrefs, anchorHrefsList, attrLookup, h]

/-- The hero's social-button row renders one link element per social-link
pair, in the given order. -/
theorem heroSocialsList_hrefs (socials : List SocialLink)
    (hI : ∀ l ∈ socials, anchorHrefs l.icon = []) :
    anchorHrefsList (socials.map HeroSocial) = socials.map SocialLink.href := by
  induction socials with
  | nil => rfl
  | cons l ls ih =>
      have h1 : anchorHrefs l.icon = [] := hI l (List.mem_cons_self l ls)
      have h2 := ih (fun x hx => hI x (List.mem_cons_of_mem l hx))
      simp [List.map, anchorHrefsList, heroSocial_hrefs l h1, h2]

/-- C1 counterexample: the navbar entries labelled GitHub and Twitter
target the site-relative path `/`, which is not an external destination,
refuting the claim that the GitHub and Twitter entries target URLs
outside the site. -/
theorem C1_counterexample :
    (navMenuEntries Navbar)[1]? = some ("GitHub", "/") ∧
    (navMenuEntries Navbar)[2]? = some ("Twitter", "/") ∧
    isExternal "/" = false :=
  ⟨rfl, rfl, rfl⟩

/-- C1 (amended): the site-wide navigation offers exactly the fixed
entries Blog → `/posts/`, GitHub → `/` and Twitter → `/`; the Blog entry
targets `/posts/` while the GitHub and Twitter entries target the site
root `/`, a site-internal path, so none of the three targets is an
external URL. -/
theorem C1_nav_targets :
    navMenuEntries Navbar =
      [("Blog", "/posts/"), ("GitHub", "/"), ("Twitter", "/")] ∧
    (navMenuEntries Navbar).map (fun e => isExternal e.2) =
      [false, false, false] :=
  ⟨rfl, rfl⟩

/-- C2: evaluating page assembly at the scala-101 front matter exactly as
authored, the assembled page's metadata carries the title, description and
hero image reference verbatim, but its publication date is the string
`2024-02-018` from the source file, not `2024-02-18` as the claim states. -/
theorem C2_scala101_metadata :
    (assemblePage scala101 []).map (taggedTexts "title") =
      some ["Scala 101"] ∧
    (assemblePage scala101 []).map (taggedTexts "description") =
      some ["Learn the very basics of Scala 3"] ∧
    (assemblePage scala101 []).map (taggedTexts "imgSrc") =
      some ["/assets/images/articles/scala-101-1.png"] ∧
    (assemblePage scala101 []).map (taggedTexts "pubDate") =
      some ["2024-02-018"] ∧
    "2024-02-018" ≠ "2024-02-18" :=
  ⟨rfl, rfl, rfl, rfl, by decide⟩

/-- C3: every page produced by page assembly embeds the one fixed navbar —
a component taking no per-page inputs — and that navbar's rendered output
contains exactly the navigation entries Blog, GitHub, Twitter, in that
declared order and nothing else. -/
theorem C3_navbar_in_every_page (fm : FrontMatter) (body : List Node)
    (page : Node) (h : assemblePage fm body = some page) :
    pageChrome page = some Navbar ∧
    (navMenuEntries Navbar).map Prod.fst = ["Blog", "GitHub", "Twitter"] := by
  unfold assemblePage at h
  cases ht : fm.title with
  | none => rw [ht] at h; exact Option.noConfusion h
  | some t =>
    cases hd : fm.pubDate with
    | none => rw [ht, hd] at h; exact Option.noConfusion h
    | some d =>
      rw [ht, hd] at h
      injection h with h
      subst h
      exact ⟨rfl, rfl⟩

/-- C3 witness: the theorem applied to the scala-101 item with an empty
body. -/
theorem C3_navbar_in_every_page_witness :
    pageChrome ((assemblePage scala101 []).getD (Node.text "")) =
      some Navbar ∧
    (navMenuEntries Navbar).map Prod.fst = ["Blog", "GitHub", "Twitter"] :=
  C3_navbar_in_every_page scala101 []
    ((assemblePage scala101 []).getD (Node.text "")) rfl

/-- C4: rendering is deterministic — two runs of page assembly and
serialization on equal inputs yield byte-identical output. -/
theorem C4_deterministic (fm1 fm2 : FrontMatter) (body1 body2 : List Node)
    (hf : fm1 = fm2) (hb : body1 = body2) :
    (assemblePage fm1 body1).map renderNode =
      (assemblePage fm2 body2).map renderNode := by
  rw [hf, hb]

/-- C4 witness: two runs on the scala-101 item yield identical output. -/
theorem C4_deterministic_witness :
    (assemblePage scala101 []).map renderNode =
      (assemblePage scala101 []).map renderNode :=
  C4_deterministic scala101 scala101 [] [] rfl rfl

/-- C5: for every ContentItem missing a required header field (title or
publication date), page assembly fails and produces no output page. -/
theorem C5_missing_field_fails (fm : FrontMatter) (body : List Node)
    (h : fm.title = none ∨ fm.pubDate = none) :
    assemblePage fm body = none := by
  unfold assemblePage
  rcases h with h | h
  · rw [h]
  · rw [h]; cases fm.title <;> rfl

/-- C5 witness: the scala-101 item with its title removed assembles to no
page. -/
theorem C5_missing_field_fails_witness :
    assemblePage { scala101 with title := none } [] = none :=
  C5_missing_field_fails { scala101 with title := none } [] (Or.inl rfl)

/-- C6: every authored ContentItem satisfies the header invariant — its
title and its publication date are present in the header block. -/
theorem C6_header_invariant :
    contentItems.all (fun fm => fm.title.isSome && fm.pubDate.isSome) =
      true := rfl

/-- C7: the `imgSrc` and `layout` keys of both content files hold path
strings, but scala-101's `pubDate` holds the string `2024-02-018`, which
is not a value of date type (three-digit day field), while scala-oop's
`2024-02-23` is; so the claim's date-type invariant fails on scala-101. -/
theorem C7_pubdate_not_date :
    scala101.pubDate = some "2024-02-018" ∧
    isDateValue "2024-02-018" = false ∧
    scalaOop.pubDate = some "2024-02-23" ∧
    isDateValue "2024-02-23" = true ∧
    contentItems.all
      (fun fm => isPathString (fm.imgSrc.getD "") &&
        isPathString (fm.layout.getD "")) = true := by
  refine ⟨rfl, ?_, rfl, ?_, ?_⟩ <;> rfl

/-- C8: the hero component, given a sequence of social-link pairs whose
icons (and whose title and description nodes) contain no links of their
own, renders exactly one link element per pair, in the order of the given
sequence. -/
theorem C8_hero_links (title description : Node) (avatar : String)
    (socialButtons : List SocialLink)
    (hT : anchorHrefs title = []) (hD : anchorHrefs description = [])
    (hI : ∀ l ∈ socialButtons, anchorHrefs l.icon = []) :
    anchorHrefs (HeroAvatar title description avatar socialButtons) =
      socialButtons.map SocialLink.href := by
  simp [HeroAvatar, anchorHrefs, anchorHrefsList, hT, hD,
        heroSocialsList_hrefs socialButtons hI]

/-- C8 witness: with the three pairs Twitter, Facebook, LinkedIn the hero
renders exactly the three links, in that order. -/
theorem C8_hero_links_witness :
    anchorHrefs (HeroAvatar (Node.text "Hello") (Node.text "Welcome")
        "/assets/images/avatar.png" heroScenario) =
      heroScenario.map SocialLink.href :=
  C8_hero_links (Node.text "Hello") (Node.text "Welcome")
    "/assets/images/avatar.png" heroScenario rfl rfl (by decide)

/-- C9: the navbar's only anchor targets the site root `/` and wraps the
logo, whose name is the constant `The Data Lead` and whose icon is the
constant image `/assets/images/avatar.png`; and every assembled page
embeds this same constant navbar. -/
theorem C9_logo_home_link :
    anchorHrefs Navbar = ["/"] ∧
    anchorElems Navbar =
      [Node.elem "a" [("href", "/")]
        [Logo { icon := Node.elem "img"
                  [("src", "/assets/images/avatar.png"), ("width", "20rem"),
                   ("style", "margin-right: 1rem")] [],
                name := "The Data Lead" }]] ∧
    (∀ fm body, (assemblePage fm body).bind pageChrome =
      (assemblePage fm body).map fun _ => Navbar) := by
  refine ⟨rfl, rfl, fun fm body => ?_⟩
  unfold assemblePage
  cases fm.title <;> cases fm.pubDate <;> rfl

/-- C10: every authored ContentItem declares the same layout,
`@/templates/BasePost.astro`, in its header. -/
theorem C10_shared_layout :
    contentItems.all
      (fun fm => fm.layout == some "@/templates/BasePost.astro") = true :=
  rfl
